import Mathlib

/-!
Verification of the S1-90 Sentinel lock contract.

The combinational authorization logic is embedded from the software model in
`test/test.py` (`SentinelModel`) and the constant-time comparator from
`test/verify_power_analysis.py` (`bitslicing_compare`).  The clocked defensive
state machine (debounce filter, replay-window gate, tamper latch) exists in the
repository only through its behavioral contract; it is modelled from the
specification text and marked as such.
-/

/-! ## Mission constants (from test/test.py) -/

def VAELIX_KEY : Nat := 0xB6

def SEG_LOCKED : Nat := 0xC7

def SEG_VERIFIED : Nat := 0xC1

def SEG_BRICK : Nat := 0x00

def GLOW_ACTIVE : Nat := 0xFF

def GLOW_DORMANT : Nat := 0x00

def UIO_ALL_OUTPUT : Nat := 0xFF

/-! ## Software model of the combinational lock (test/test.py, SentinelModel) -/

structure SentinelModel where
  ui_in : Nat
  uo_out : Nat
  uio_out : Nat
  uio_oe : Nat
deriving DecidableEq

/-- Initial model state, from `SentinelModel.__init__`. -/
def SentinelModel.init : SentinelModel :=
  { ui_in := 0x00, uo_out := SEG_LOCKED, uio_out := GLOW_DORMANT, uio_oe := UIO_ALL_OUTPUT }

/-- `SentinelModel.evaluate`: combinational evaluation of one input.
Masks the argument with `&&& 0xFF`, compares against the key and drives the
segment, glow and direction outputs.  Returns the updated model together with
the `(uo_out, uio_out, uio_oe)` triple, as in the source. -/
def SentinelModel.evaluate (s : SentinelModel) (key_input : Nat) :
    SentinelModel × Nat × Nat × Nat :=
  let ui := key_input &&& 0xFF
  let s' : SentinelModel :=
    if ui = VAELIX_KEY then
      { ui_in := ui, uo_out := SEG_VERIFIED, uio_out := GLOW_ACTIVE, uio_oe := UIO_ALL_OUTPUT }
    else
      { ui_in := ui, uo_out := SEG_LOCKED, uio_out := GLOW_DORMANT, uio_oe := UIO_ALL_OUTPUT }
  (s', s'.uo_out, s'.uio_out, s'.uio_oe)

/-- Fold the software model over a whole input history (used to state that the
steady-state output is independent of prior inputs). -/
def SentinelModel.runModel (s : SentinelModel) : List Nat → SentinelModel
  | [] => s
  | k :: ks => SentinelModel.runModel (SentinelModel.evaluate s k).1 ks

/-- Evaluate the same input for `n` consecutive ticks. -/
def SentinelModel.hold (s : SentinelModel) (k : Nat) : Nat → SentinelModel
  | 0 => s
  | n + 1 => (SentinelModel.evaluate (SentinelModel.hold s k n) k).1

/-! ## Constant-time comparator (test/verify_power_analysis.py) -/

/-- `bitslicing_compare`: XOR the two bytes, OR-reduce bits 0..7 of the
difference, then logical NOT.  Returns `(is_authorized, diff, any_diff)`. -/
def bitslicing_compare (ui_in key : Nat) : Nat × Nat × Nat :=
  let diff := ui_in ^^^ key
  let any_diff := (List.range 8).foldl (fun acc i => acc ||| ((diff >>> i) &&& 1)) 0
  let is_authorized := 1 - any_diff
  (is_authorized, diff, any_diff)

/-! ## Gate-level rendition of the comparator

The source file documents the hardware form of the comparator: eight per-bit
XOR gates, a seven-gate OR-reduction `diff[7] | diff[6] | ... | diff[0]`, and
one final NOT.  `bitsliceCircuit` evaluates that straight-line circuit and
records the sequence of gates it performs, so that the constant-operation
guarantee can be stated as: the recorded gate trace is the same for every
input. -/

inductive Gate where
  | xorG : Gate
  | orG : Gate
  | notG : Gate
deriving DecidableEq

/-- Extract bit `i` of `x` as a 0/1 value, the `(x >> i) & 1` idiom of the
source. -/
def bitAt (x i : Nat) : Nat := (x >>> i) &&& 1

/-- OR-reduction of a list of bit values, recording one OR gate per reduction
step (seven gates for eight bits). -/
def orReduceGates : List Nat → Nat × List Gate
  | [] => (0, [])
  | [b] => (b, [])
  | b :: bs =>
    let r := orReduceGates bs
    (b ||| r.1, Gate.orG :: r.2)

/-- The comparator circuit: eight XOR gates, the OR-reduction, one NOT gate.
Returns the `is_authorized` bit together with the gate trace. -/
def bitsliceCircuit (ui key : Nat) : Nat × List Gate :=
  let diffBits := (List.range 8).map (fun i => bitAt ui i ^^^ bitAt key i)
  let red := orReduceGates diffBits
  let is_authorized := 1 - red.1
  (is_authorized, ((List.range 8).map (fun _ => Gate.xorG)) ++ red.2 ++ [Gate.notG])

/-! ## Bit-level helper lemmas -/

theorem and_one_eq_testBit (m i : Nat) :
    (m >>> i) &&& 1 = if m.testBit i then 1 else 0 := by
  rw [Nat.and_one_is_mod, Nat.shiftRight_eq_div_pow, Nat.testBit_to_div_mod]
  rcases Nat.mod_two_eq_zero_or_one (m / 2 ^ i) with h | h <;> simp [h]

theorem bitAt_xor (x y i : Nat) : bitAt (x ^^^ y) i = bitAt x i ^^^ bitAt y i := by
  unfold bitAt
  rw [and_one_eq_testBit, and_one_eq_testBit, and_one_eq_testBit, Nat.testBit_xor]
  cases hx : x.testBit i <;> cases hy : y.testBit i <;> simp

theorem bitAt_mod_256 (x i : Nat) (h : i < 8) : bitAt (x % 256) i = bitAt x i := by
  unfold bitAt
  rw [and_one_eq_testBit, and_one_eq_testBit]
  have h256 : (256 : Nat) = 2 ^ 8 := by norm_num
  rw [h256, Nat.testBit_mod_two_pow]
  simp [h]

/-! ## Clocked security state machine

Modelled from the spec: the clocked Sentinel core (debounce filter, anomaly
monitor, replay-window gate, tamper latch, glitch guard, orchestrating state
machine and output encoder of spec sections 3 and 4) is exercised by the cocotb
suites (`test.py`, `test_replay.py`, `test_tamper.py`) but its RTL is not among
the sources; the definitions below follow the specification text. -/

inductive AuthorizationState where
  | Locked : AuthorizationState
  | Verified : AuthorizationState
  | ReplayLockout : AuthorizationState
  | FuzzLockout : AuthorizationState
  | Brick : AuthorizationState
  | GlitchReset : AuthorizationState
deriving DecidableEq

/-- One tick's external inputs: input bus, auxiliary bus, enable, the
active-low sovereign reset line and the externally driven glitch signal. -/
structure TickInput where
  ui : Nat
  aux : Nat
  ena : Bool
  rst_n : Bool
  glitch : Bool
deriving DecidableEq

/-- The monitored subset of the auxiliary bus: bits 1 through 7 (bit 0 is
exempt from tamper significance). -/
def auxBits (a : Nat) : Nat := a &&& 0xFE

/-- Modelled from the spec: the state owned by the clocked core — the resolved
authorization state, the tick counter since the last enable rising edge, the
debounce counter with the previous input value, the enable-edge tracker, the
reset-time reference of the monitored auxiliary bits, the three sticky fault
latches and the rolling transition window of the anomaly monitor. -/
structure CoreState where
  auth : AuthorizationState
  tickCount : Nat
  debounce : Nat
  prevInput : Nat
  prevEna : Bool
  auxRef : Nat
  brick : Bool
  replayLocked : Bool
  fuzzLocked : Bool
  window : List Bool
deriving DecidableEq

/-- Modelled from the spec: the powered-off state.  With enable de-asserted
everything is re-initialized, including the tamper latch — a power cycle is the
one action that clears `Brick`. -/
def powerOff (i : TickInput) : CoreState :=
  { auth := .Locked, tickCount := 0, debounce := 0, prevInput := i.ui,
    prevEna := false, auxRef := auxBits i.aux, brick := false,
    replayLocked := false, fuzzLocked := false, window := [] }

/-- The tick counter: restarts at 0 on an enable rising edge, otherwise counts
up. -/
def nextTick (s : CoreState) : Nat :=
  if s.prevEna then s.tickCount + 1 else 0

/-- Modelled from the spec: the glitch guard holds the core at reset defaults
(self-healing, no sticky lockout) for every tick the glitch signal remains
asserted; the tamper latch survives. -/
def stepGlitch (s : CoreState) (i : TickInput) : CoreState :=
  { auth := if s.brick then .Brick else .GlitchReset,
    tickCount := 0, debounce := 0, prevInput := i.ui, prevEna := true,
    auxRef := s.auxRef, brick := s.brick,
    replayLocked := false, fuzzLocked := false, window := [] }

/-- Modelled from the spec: the sovereign reset re-initializes all state to
`Locked` with counters at zero; `Brick` is the only state that survives it. -/
def stepReset (s : CoreState) (i : TickInput) : CoreState :=
  { auth := if s.brick then .Brick else .Locked,
    tickCount := 0, debounce := 0, prevInput := i.ui, prevEna := true,
    auxRef := auxBits i.aux, brick := s.brick,
    replayLocked := false, fuzzLocked := false, window := [] }

/-- Modelled from the spec: an ordinary powered tick — tamper latch, debounce
update, anomaly window update, replay-window gate, comparator and the
orchestrating priority chain. -/
def stepRun (s : CoreState) (i : TickInput) : CoreState :=
  let tick := nextTick s
  let tamper := auxBits i.aux ≠ s.auxRef
  let brickNow := s.brick || decide tamper
  let changed := i.ui ≠ s.prevInput
  let db := if changed then 0 else s.debounce + 1
  let win := List.take 100 (decide changed :: s.window)
  let transitions := (win.filter id).length
  let fuzzNow := s.fuzzLocked || decide (transitions > 10)
  let matched := decide (i.ui = VAELIX_KEY)
  let replayNow := s.replayLocked || (matched && (decide (tick = 0) || decide (10 ≤ tick)))
  let auth :=
    if brickNow then AuthorizationState.Brick
    else if replayNow then AuthorizationState.ReplayLockout
    else if fuzzNow then AuthorizationState.FuzzLockout
    else if matched && decide (3 ≤ tick) && decide (tick ≤ 5) && decide (4 ≤ db) then
      AuthorizationState.Verified
    else AuthorizationState.Locked
  { auth := auth, tickCount := tick, debounce := db, prevInput := i.ui, prevEna := true,
    auxRef := s.auxRef, brick := brickNow,
    replayLocked := replayNow, fuzzLocked := fuzzNow, window := win }

/-- Modelled from the spec: one tick of the Sentinel core.  Priority order per
spec section 4.7: power state, then the glitch guard, then the sovereign reset
(both re-initialize everything except the tamper latch), then an ordinary
powered tick.  The replay-window gate uses the observed admission window of
ticks 3..5, the immediate-replay rule at tick 0 and the stale-replay bound at
tick 10; the debounce threshold is 4 ticks and the anomaly monitor locks out
past 10 transitions in the last 100 ticks. -/
def step (s : CoreState) (i : TickInput) : CoreState :=
  if i.ena = false then powerOff i
  else if i.glitch then stepGlitch s i
  else if i.rst_n = false then stepReset s i
  else stepRun s i

/-- Modelled from the spec: the output encoder.  `Locked` and the two recoverable
lockouts render the locked display; `Verified` lights the glow; `Brick` and
`GlitchReset` blank the display; the direction byte is always `0xFF`. -/
def render (a : AuthorizationState) : Nat × Nat × Nat :=
  match a with
  | .Locked => (SEG_LOCKED, GLOW_DORMANT, UIO_ALL_OUTPUT)
  | .Verified => (SEG_VERIFIED, GLOW_ACTIVE, UIO_ALL_OUTPUT)
  | .ReplayLockout => (SEG_LOCKED, GLOW_DORMANT, UIO_ALL_OUTPUT)
  | .FuzzLockout => (SEG_LOCKED, GLOW_DORMANT, UIO_ALL_OUTPUT)
  | .Brick => (SEG_BRICK, GLOW_DORMANT, UIO_ALL_OUTPUT)
  | .GlitchReset => (SEG_BRICK, GLOW_DORMANT, UIO_ALL_OUTPUT)

/-- The list of states reached after each tick of an input sequence. -/
def trace (s : CoreState) : List TickInput → List CoreState
  | [] => []
  | i :: is => step s i :: trace (step s i) is

/-- Run the core over a whole input sequence. -/
def runCore (s : CoreState) : List TickInput → CoreState
  | [] => s
  | i :: is => runCore (step s i) is

/-- A canonical power-on state (everything cleared, enable low). -/
def CoreState.start : CoreState :=
  powerOff { ui := 0, aux := 0, ena := false, rst_n := true, glitch := false }

/-! ## Shared lemmas about the combinational logic -/

/-- `evaluate` ignores the prior model state entirely. -/
theorem evaluate_state_free (s t : SentinelModel) (k : Nat) :
    SentinelModel.evaluate s k = SentinelModel.evaluate t k := rfl

/-- The input mask `&&& 0xFF` is reduction modulo 256. -/
theorem and_255_eq_mod (n : Nat) : n &&& 0xFF = n % 256 := by
  have h := Nat.and_pow_two_sub_one_eq_mod n 8
  norm_num at h
  exact h

theorem bitAt_def (x i : Nat) : bitAt x i = (x >>> i) &&& 1 := rfl

/-- `evaluate` only reads its input modulo 256. -/
theorem evaluate_mask (n : Nat) :
    SentinelModel.evaluate SentinelModel.init n =
      SentinelModel.evaluate SentinelModel.init (n % 256) := by
  have h1 : n &&& 0xFF = n % 256 &&& 0xFF := by
    rw [and_255_eq_mod, and_255_eq_mod]
    omega
  simp only [SentinelModel.evaluate, h1]

set_option maxRecDepth 8192 in
/-- The exhaustive 8-bit characterization of the comparator: over the 256
byte values, `is_authorized` is 1 exactly at the key, 0 elsewhere, and agrees
with the equality test of the software model. -/
theorem bitslicing_ball :
    ∀ m, m < 256 →
      ((bitslicing_compare m VAELIX_KEY).1 = 1 ↔ m = VAELIX_KEY) ∧
      ((bitslicing_compare m VAELIX_KEY).1 = 0 ↔ m ≠ VAELIX_KEY) ∧
      ((bitslicing_compare m VAELIX_KEY).1 = 1 ↔
        (SentinelModel.evaluate SentinelModel.init m).2.1 = SEG_VERIFIED) := by
  decide

/-- The comparator's result depends only on the input modulo 256: the
OR-reduction reads only bits 0 through 7 of the XOR difference. -/
theorem bitslicing_fst_mod (n : Nat) :
    (bitslicing_compare (n % 256) VAELIX_KEY).1 = (bitslicing_compare n VAELIX_KEY).1 := by
  have h8 : List.range 8 = [0, 1, 2, 3, 4, 5, 6, 7] := rfl
  simp only [bitslicing_compare, h8, List.foldl]
  have e : ∀ (x i : Nat), i < 8 →
      ((x % 256 ^^^ VAELIX_KEY) >>> i) &&& 1 = ((x ^^^ VAELIX_KEY) >>> i) &&& 1 := by
    intro x i hi
    show bitAt (x % 256 ^^^ VAELIX_KEY) i = bitAt (x ^^^ VAELIX_KEY) i
    rw [bitAt_xor, bitAt_xor, bitAt_mod_256 x i hi]
  rw [e n 0 (by norm_num), e n 1 (by norm_num), e n 2 (by norm_num), e n 3 (by norm_num),
      e n 4 (by norm_num), e n 5 (by norm_num), e n 6 (by norm_num), e n 7 (by norm_num)]

/-! ## Claims about the combinational lock and the comparator -/

set_option maxRecDepth 8192 in
/-- C1: for every 8-bit input value, the Sentinel model yields the Verified
output (display 0xC1, glow 0xFF) iff the input equals the key 0xB6, and the
Locked output (display 0xC7, glow 0x00) for each of the other 255 values —
in particular for every Hamming-distance-1/2 neighbor, bitwise transform,
same-weight byte and partial-nibble match of the key, since those are all
8-bit values different from the key. -/
theorem C1_exhaustive_sweep (s : SentinelModel) (k : Nat) (hk : k < 256) :
    ((SentinelModel.evaluate s k).2 = (SEG_VERIFIED, GLOW_ACTIVE, UIO_ALL_OUTPUT) ↔
      k = VAELIX_KEY) ∧
    (k ≠ VAELIX_KEY →
      (SentinelModel.evaluate s k).2 = (SEG_LOCKED, GLOW_DORMANT, UIO_ALL_OUTPUT)) := by
  have H : ∀ m, m < 256 →
      ((SentinelModel.evaluate SentinelModel.init m).2 =
          (SEG_VERIFIED, GLOW_ACTIVE, UIO_ALL_OUTPUT) ↔ m = VAELIX_KEY) ∧
      (m ≠ VAELIX_KEY →
        (SentinelModel.evaluate SentinelModel.init m).2 =
          (SEG_LOCKED, GLOW_DORMANT, UIO_ALL_OUTPUT)) := by decide
  exact H k hk

theorem C1_witness :
    (SentinelModel.evaluate SentinelModel.init 0xB6).2 =
      (SEG_VERIFIED, GLOW_ACTIVE, UIO_ALL_OUTPUT) ∧
    (SentinelModel.evaluate SentinelModel.init 0xB7).2 =
      (SEG_LOCKED, GLOW_DORMANT, UIO_ALL_OUTPUT) :=
  ⟨(C1_exhaustive_sweep SentinelModel.init 0xB6 (by norm_num)).1.mpr rfl,
   (C1_exhaustive_sweep SentinelModel.init 0xB7 (by norm_num)).2 (by decide)⟩

/-- C2: the constant-time comparator is extensionally equal to plain equality:
for every 8-bit input, `bitslicing_compare ui 0xB6` returns 1 exactly when
`ui = 0xB6`, returns 0 otherwise, and computes the same boolean match as the
direct equality test used by `SentinelModel.evaluate`. -/
theorem C2_comparator_refines_equality (ui : Nat) (hui : ui < 256) :
    ((bitslicing_compare ui VAELIX_KEY).1 = 1 ↔ ui = VAELIX_KEY) ∧
    ((bitslicing_compare ui VAELIX_KEY).1 = 0 ↔ ui ≠ VAELIX_KEY) ∧
    ((bitslicing_compare ui VAELIX_KEY).1 = 1 ↔
      (SentinelModel.evaluate SentinelModel.init ui).2.1 = SEG_VERIFIED) :=
  bitslicing_ball ui hui

theorem C2_witness :
    (bitslicing_compare 0xB6 VAELIX_KEY).1 = 1 ∧
    (bitslicing_compare 0x49 VAELIX_KEY).1 = 0 :=
  ⟨(C2_comparator_refines_equality 0xB6 (by norm_num)).1.mpr rfl,
   (C2_comparator_refines_equality 0x49 (by norm_num)).2.1.mpr (by decide)⟩

/-- C6: output coherence of the combinational model — whenever the display
shows the Verified code the glow is 0xFF, whenever it shows the Locked code the
glow is 0x00, and no other display/glow combination occurs for any input or
prior state; likewise for the output encoder of the modelled clocked core in
every non-Brick, non-GlitchReset authorization state. -/
theorem C6_output_coherence :
    (∀ (s : SentinelModel) (k : Nat),
      ((SentinelModel.evaluate s k).2.1 = SEG_VERIFIED →
        (SentinelModel.evaluate s k).2.2.1 = GLOW_ACTIVE) ∧
      ((SentinelModel.evaluate s k).2.1 = SEG_LOCKED →
        (SentinelModel.evaluate s k).2.2.1 = GLOW_DORMANT) ∧
      (((SentinelModel.evaluate s k).2.1 = SEG_VERIFIED ∧
          (SentinelModel.evaluate s k).2.2.1 = GLOW_ACTIVE) ∨
       ((SentinelModel.evaluate s k).2.1 = SEG_LOCKED ∧
          (SentinelModel.evaluate s k).2.2.1 = GLOW_DORMANT))) ∧
    (∀ a : AuthorizationState,
      ((render a).1 = SEG_VERIFIED → (render a).2.1 = GLOW_ACTIVE) ∧
      ((render a).1 = SEG_LOCKED → (render a).2.1 = GLOW_DORMANT)) ∧
    (∀ a : AuthorizationState, a ≠ .Brick → a ≠ .GlitchReset →
      ((render a).1 = SEG_VERIFIED ∧ (render a).2.1 = GLOW_ACTIVE) ∨
      ((render a).1 = SEG_LOCKED ∧ (render a).2.1 = GLOW_DORMANT)) := by
  refine ⟨?_, ?_, ?_⟩
  · intro s k
    simp only [SentinelModel.evaluate]
    split <;> refine ⟨?_, ?_, ?_⟩ <;>
      simp [SEG_VERIFIED, SEG_LOCKED, GLOW_ACTIVE, GLOW_DORMANT]
  · intro a
    cases a <;> refine ⟨?_, ?_⟩ <;>
      simp [render, SEG_VERIFIED, SEG_LOCKED, SEG_BRICK, GLOW_ACTIVE, GLOW_DORMANT]
  · intro a h1 h2
    cases a <;>
      simp_all [render, SEG_VERIFIED, SEG_LOCKED, SEG_BRICK, GLOW_ACTIVE, GLOW_DORMANT]

theorem C6_witness :
    (SentinelModel.evaluate SentinelModel.init 0xB6).2.2.1 = GLOW_ACTIVE ∧
    (SentinelModel.evaluate SentinelModel.init 0x00).2.2.1 = GLOW_DORMANT :=
  ⟨(C6_output_coherence.1 SentinelModel.init 0xB6).1 rfl,
   (C6_output_coherence.1 SentinelModel.init 0x00).2.1 rfl⟩

/-- C7: the comparator circuit performs the same gate trace for every possible
pair of inputs — eight XOR gates, seven OR gates and one NOT gate, with no
branching and no short-circuit — and its result agrees with the
`bitslicing_compare` source function on every input. -/
theorem C7_constant_gate_trace (ui key : Nat) :
    (bitsliceCircuit ui key).2 = (bitsliceCircuit 0 0).2 ∧
    (bitsliceCircuit ui key).2.count Gate.xorG = 8 ∧
    (bitsliceCircuit ui key).2.count Gate.orG = 7 ∧
    (bitsliceCircuit ui key).2.count Gate.notG = 1 ∧
    (bitsliceCircuit ui key).1 = (bitslicing_compare ui key).1 := by
  refine ⟨rfl, rfl, rfl, rfl, ?_⟩
  have h8 : List.range 8 = [0, 1, 2, 3, 4, 5, 6, 7] := rfl
  simp only [bitsliceCircuit, bitslicing_compare, h8, List.map, List.foldl, orReduceGates]
  simp only [← bitAt_def, bitAt_xor]
  simp [Nat.lor_assoc]

/-- C8: steady-state evaluation is stateless and idempotent: the full result of
`evaluate` never depends on the prior model state, the output after an
arbitrary input history equals the output on a fresh model, and holding an
input for any number of consecutive ticks keeps producing the same
display/glow/direction triple. -/
theorem C8_stateless_idempotent :
    (∀ (s t : SentinelModel) (k : Nat),
      SentinelModel.evaluate s k = SentinelModel.evaluate t k) ∧
    (∀ (s : SentinelModel) (hist : List Nat) (k : Nat),
      (SentinelModel.evaluate (SentinelModel.runModel s hist) k).2 =
        (SentinelModel.evaluate s k).2) ∧
    (∀ (s : SentinelModel) (k n : Nat),
      (SentinelModel.evaluate (SentinelModel.hold s k n) k).2 =
        (SentinelModel.evaluate s k).2) :=
  ⟨fun _ _ _ => rfl, fun _ _ _ => rfl, fun _ _ _ => rfl⟩

/-- C9: the direction/output-enable byte is 0xFF after every evaluation, for
every input and every prior state, at reset, and in every authorization state
of the output encoder. -/
theorem C9_direction_invariant :
    (∀ (s : SentinelModel) (k : Nat),
      (SentinelModel.evaluate s k).2.2.2 = UIO_ALL_OUTPUT ∧
      (SentinelModel.evaluate s k).1.uio_oe = UIO_ALL_OUTPUT) ∧
    SentinelModel.init.uio_oe = UIO_ALL_OUTPUT ∧
    (∀ a : AuthorizationState, (render a).2.2 = UIO_ALL_OUTPUT) := by
  refine ⟨fun s k => ?_, rfl, fun a => by cases a <;> rfl⟩
  simp only [SentinelModel.evaluate]
  split <;> exact ⟨rfl, rfl⟩

/-- C10: authorization depends only on the input value modulo 256: for every
natural-number input, `SentinelModel.evaluate` reports the Verified display and
`bitslicing_compare` reports `is_authorized = 1` exactly when the input is
congruent to 0xB6 modulo 256; in particular the out-of-range argument 0x1B6 is
treated as authorized by `bitslicing_compare`. -/
theorem C10_mod_256_authorization :
    (∀ n : Nat,
      (SentinelModel.evaluate SentinelModel.init n).2.1 = SEG_VERIFIED ↔
        n % 256 = VAELIX_KEY) ∧
    (∀ n : Nat, (bitslicing_compare n VAELIX_KEY).1 = 1 ↔ n % 256 = VAELIX_KEY) ∧
    (bitslicing_compare 0x1B6 VAELIX_KEY).1 = 1 ∧
    256 ≤ 0x1B6 ∧ (0x1B6 : Nat) % 256 = VAELIX_KEY := by
  refine ⟨fun n => ?_, fun n => ?_, by decide, by norm_num, by decide⟩
  · rw [evaluate_mask n]
    have hb := bitslicing_ball (n % 256) (Nat.mod_lt n (by norm_num))
    exact hb.2.2.symm.trans hb.1
  · rw [← bitslicing_fst_mod n]
    exact (bitslicing_ball (n % 256) (Nat.mod_lt n (by norm_num))).1

/-! ## Lemmas about the modelled clocked core -/

/-- With enable low the step is the power-off re-initialization. -/
theorem step_off_eq (s : CoreState) (i : TickInput) (he : i.ena = false) :
    step s i = powerOff i := by
  simp [step, he]

/-- An ordinary powered tick (no glitch, reset released) runs the main
pipeline. -/
theorem step_run_eq (s : CoreState) (i : TickInput) (he : i.ena = true)
    (hg : i.glitch = false) (hr : i.rst_n = true) : step s i = stepRun s i := by
  simp [step, he, hg, hr]

/-- Every branch of `step` records the current input as the new previous
input. -/
theorem step_prevInput (s : CoreState) (i : TickInput) : (step s i).prevInput = i.ui := by
  simp only [step]
  split_ifs <;> simp [powerOff, stepGlitch, stepReset, stepRun]

/-- Any change of the input bus resets the debounce counter, in every branch
of `step`. -/
theorem step_debounce_reset (s : CoreState) (i : TickInput) (h : i.ui ≠ s.prevInput) :
    (step s i).debounce = 0 := by
  simp only [step]
  split_ifs <;> simp [powerOff, stepGlitch, stepReset, stepRun, h]

theorem powerOff_auth (i : TickInput) : (powerOff i).auth = .Locked := rfl

theorem stepGlitch_not_verified (s : CoreState) (i : TickInput) :
    (stepGlitch s i).auth ≠ .Verified := by
  by_cases hb : s.brick = true <;> simp [stepGlitch, hb]

theorem stepReset_not_verified (s : CoreState) (i : TickInput) :
    (stepReset s i).auth ≠ .Verified := by
  by_cases hb : s.brick = true <;> simp [stepReset, hb]

/-- In the main pipeline, `Verified` is produced only for the exact key and
only with the debounce counter at or above the threshold of 4 stable ticks. -/
theorem stepRun_verified (s : CoreState) (i : TickInput)
    (h : (stepRun s i).auth = .Verified) :
    i.ui = VAELIX_KEY ∧ 4 ≤ (stepRun s i).debounce := by
  simp only [stepRun] at h ⊢
  split_ifs at h ⊢ <;> simp_all

/-- `Verified` is produced only for the exact key and only with the debounce
counter at or above the threshold of 4 stable ticks. -/
theorem step_verified (s : CoreState) (i : TickInput)
    (h : (step s i).auth = .Verified) :
    i.ui = VAELIX_KEY ∧ 4 ≤ (step s i).debounce := by
  by_cases he : i.ena = false
  · rw [step_off_eq s i he] at h
    exact absurd h (by simp [powerOff])
  · have he' : i.ena = true := by revert he; cases i.ena <;> simp
    by_cases hg : i.glitch = true
    · have hs : step s i = stepGlitch s i := by simp [step, he', hg]
      rw [hs] at h
      exact absurd h (stepGlitch_not_verified s i)
    · have hg' : i.glitch = false := by revert hg; cases i.glitch <;> simp
      by_cases hr : i.rst_n = false
      · have hs : step s i = stepReset s i := by simp [step, he', hg', hr]
        rw [hs] at h
        exact absurd h (stepReset_not_verified s i)
      · have hr' : i.rst_n = true := by revert hr; cases i.rst_n <;> simp
        have hs : step s i = stepRun s i := step_run_eq s i he' hg' hr'
        rw [hs] at h ⊢
        exact stepRun_verified s i h

/-- In the main pipeline the replay latch is preserved and blocks
`Verified`. -/
theorem stepRun_replay_sticky (s : CoreState) (i : TickInput) (h : s.replayLocked = true) :
    (stepRun s i).replayLocked = true ∧ (stepRun s i).auth ≠ .Verified := by
  simp only [stepRun, h]
  refine ⟨by simp, ?_⟩
  split_ifs <;> simp_all

/-- The replay latch is sticky across ordinary ticks (enable high, no reset,
no glitch), and while latched the state is never `Verified`. -/
theorem step_replay_sticky (s : CoreState) (i : TickInput) (h : s.replayLocked = true)
    (he : i.ena = true) (hr : i.rst_n = true) (hg : i.glitch = false) :
    (step s i).replayLocked = true ∧ (step s i).auth ≠ .Verified := by
  rw [step_run_eq s i he hg hr]
  exact stepRun_replay_sticky s i h

/-- In the main pipeline the tamper latch is preserved and forces `Brick`. -/
theorem stepRun_brick_sticky (s : CoreState) (i : TickInput) (h : s.brick = true) :
    (stepRun s i).brick = true ∧ (stepRun s i).auth = .Brick := by
  simp only [stepRun, h]
  exact ⟨by simp, by simp⟩

/-- The tamper latch is sticky whenever the device stays powered — across
ordinary ticks, soft resets and glitches — and forces the `Brick` state. -/
theorem step_brick_sticky (s : CoreState) (i : TickInput) (h : s.brick = true)
    (he : i.ena = true) :
    (step s i).brick = true ∧ (step s i).auth = .Brick := by
  by_cases hg : i.glitch = true
  · have hs : step s i = stepGlitch s i := by simp [step, he, hg]
    rw [hs]
    simp [stepGlitch, h]
  · have hg' : i.glitch = false := by revert hg; cases i.glitch <;> simp
    by_cases hr : i.rst_n = false
    · have hs : step s i = stepReset s i := by simp [step, he, hg', hr]
      rw [hs]
      simp [stepReset, h]
    · have hr' : i.rst_n = true := by revert hr; cases i.rst_n <;> simp
      rw [step_run_eq s i he hg' hr']
      exact stepRun_brick_sticky s i h

/-- With the monitored auxiliary bits unchanged from their reference value, a
non-bricked core does not brick, in any branch of `step`. -/
theorem step_no_new_brick (s : CoreState) (i : TickInput) (h : s.brick = false)
    (ha : auxBits i.aux = s.auxRef) :
    (step s i).brick = false ∧ (step s i).auth ≠ .Brick := by
  by_cases he : i.ena = false
  · rw [step_off_eq s i he]
    simp [powerOff]
  · have he' : i.ena = true := by revert he; cases i.ena <;> simp
    by_cases hg : i.glitch = true
    · have hs : step s i = stepGlitch s i := by simp [step, he', hg]
      rw [hs]
      simp [stepGlitch, h]
    · have hg' : i.glitch = false := by revert hg; cases i.glitch <;> simp
      by_cases hr : i.rst_n = false
      · have hs : step s i = stepReset s i := by simp [step, he', hg', hr]
        rw [hs]
        simp [stepReset, h]
      · have hr' : i.rst_n = true := by revert hr; cases i.rst_n <;> simp
        rw [step_run_eq s i he' hg' hr']
        simp only [stepRun, h, ha]
        refine ⟨by simp, ?_⟩
        split_ifs <;> simp_all

/-- A fresh tamper event on an ordinary powered tick latches `Brick`. -/
theorem step_new_tamper (s : CoreState) (i : TickInput) (he : i.ena = true)
    (hg : i.glitch = false) (hr : i.rst_n = true) (ha : auxBits i.aux ≠ s.auxRef) :
    (step s i).brick = true ∧ (step s i).auth = .Brick := by
  rw [step_run_eq s i he hg hr]
  exact ⟨by simp [stepRun, ha], by simp [stepRun, ha]⟩

/-- On an enable rising edge with the key already on the bus, an ordinary
powered tick latches the replay lockout; without a tamper event the resolved
state is `ReplayLockout`. -/
theorem step_immediate_replay (s : CoreState) (i : TickInput) (he : i.ena = true)
    (hg : i.glitch = false) (hr : i.rst_n = true) (hp : s.prevEna = false)
    (hk : i.ui = VAELIX_KEY) (hb : s.brick = false) (ha : auxBits i.aux = s.auxRef) :
    (step s i).auth = .ReplayLockout ∧ (step s i).replayLocked = true := by
  rw [step_run_eq s i he hg hr]
  simp only [stepRun, nextTick, hp, hk, hb, ha]
  simp

/-- Along any powered run, a latched tamper keeps every subsequent state in
`Brick`. -/
theorem trace_brick (s : CoreState) (hs : s.brick = true) :
    ∀ is : List TickInput, (∀ j ∈ is, j.ena = true) →
      ∀ t ∈ trace s is, t.brick = true ∧ t.auth = .Brick := by
  intro is
  induction is generalizing s with
  | nil => intro _ t ht; simp [trace] at ht
  | cons i rest ih =>
    intro hall t ht
    have hi := hall i (by simp)
    have hstep := step_brick_sticky s i hs hi
    simp only [trace, List.mem_cons] at ht
    rcases ht with h | h
    · rw [h]; exact hstep
    · exact ih (step s i) hstep.1 (fun j hj => hall j (by simp [hj])) t h

/-- Along any reset-free powered run, a latched replay lockout persists and is
never `Verified`. -/
theorem trace_replay (s : CoreState) (hs : s.replayLocked = true) :
    ∀ is : List TickInput, (∀ j ∈ is, j.ena = true ∧ j.rst_n = true ∧ j.glitch = false) →
      ∀ t ∈ trace s is, t.replayLocked = true ∧ t.auth ≠ .Verified := by
  intro is
  induction is generalizing s with
  | nil => intro _ t ht; simp [trace] at ht
  | cons i rest ih =>
    intro hall t ht
    have hi := hall i (by simp)
    have hstep := step_replay_sticky s i hs hi.1 hi.2.1 hi.2.2
    simp only [trace, List.mem_cons] at ht
    rcases ht with h | h
    · rw [h]; exact hstep
    · exact ih (step s i) hstep.1 (fun j hj => hall j (by simp [hj])) t h

/-- An input that differs from the previous tick's value on every tick keeps
the debounce counter at zero and therefore never reaches `Verified`. -/
theorem trace_alternating (s : CoreState) :
    ∀ is : List TickInput,
      List.Chain' (fun a b => a ≠ b) (s.prevInput :: is.map TickInput.ui) →
      ∀ t ∈ trace s is, t.auth ≠ .Verified := by
  intro is
  induction is generalizing s with
  | nil => intro _ t ht; simp [trace] at ht
  | cons i rest ih =>
    intro hchain t ht
    have hne : i.ui ≠ s.prevInput := by
      have hc := List.chain'_cons.mp hchain
      exact Ne.symm (by simpa using hc.1)
    have hdb : (step s i).debounce = 0 := step_debounce_reset s i hne
    have hnv : (step s i).auth ≠ .Verified := by
      intro hv
      have h4 := (step_verified s i hv).2
      omega
    simp only [trace, List.mem_cons] at ht
    rcases ht with h | h
    · rw [h]; exact hnv
    · have hchain2 : List.Chain'
          (fun a b => a ≠ b) ((step s i).prevInput :: rest.map TickInput.ui) := by
        rw [step_prevInput]
        have hc := List.chain'_cons.mp hchain
        simpa using hc.2
      exact ih (step s i) hchain2 t h

/-! ## Claims about the modelled clocked core -/

/-- C3: debounce — in every run of the per-tick state machine, a `Verified`
output requires the exact key with the debounce counter at the threshold of 4
consecutive stable ticks; with the input held stable for fewer than 4
consecutive ticks the output is never `Verified`; and an input that changes on
every tick never settles and never authorizes. -/
theorem C3_debounce_requirement :
    (∀ (s : CoreState) (i : TickInput),
      (step s i).auth = .Verified → i.ui = VAELIX_KEY ∧ 4 ≤ (step s i).debounce) ∧
    (∀ (s : CoreState) (i : TickInput),
      (step s i).debounce < 4 → (step s i).auth ≠ .Verified) ∧
    (∀ (s : CoreState) (is : List TickInput),
      List.Chain' (fun a b => a ≠ b) (s.prevInput :: is.map TickInput.ui) →
      ∀ t ∈ trace s is, t.auth ≠ .Verified) := by
  refine ⟨step_verified, ?_, trace_alternating⟩
  intro s i hlt hv
  have h4 := (step_verified s i hv).2
  omega

theorem C3_witness :
    ((⟨VAELIX_KEY, 0, true, true, false⟩ : TickInput).ui = VAELIX_KEY ∧
      4 ≤ (step ⟨.Locked, 4, 3, VAELIX_KEY, true, 0, false, false, false, []⟩
            ⟨VAELIX_KEY, 0, true, true, false⟩).debounce) ∧
    (step ⟨.Locked, 0, 0, 0x00, true, 0, false, false, false, []⟩
        ⟨VAELIX_KEY, 0, true, true, false⟩).auth ≠ .Verified :=
  ⟨C3_debounce_requirement.1 _ _ (by decide),
   C3_debounce_requirement.2.1 _ _ (by decide)⟩

/-- C4 counterexample: the claim "the output never becomes Verified for the
remainder of that power cycle" fails on the modelled core as soon as the
sovereign reset line is toggled inside the power cycle: with enable high
throughout (one power cycle), the key present at the enable rising edge latches
`ReplayLockout`, yet after a one-tick soft reset the re-presented key verifies,
because the lifecycle rules re-initialize every latch except `Brick` on a full
reset sequence. -/
theorem C4_counterexample_soft_reset :
    (step CoreState.start ⟨VAELIX_KEY, 0, true, true, false⟩).auth = .ReplayLockout ∧
    (runCore CoreState.start
      [⟨VAELIX_KEY, 0, true, true, false⟩,
       ⟨0x00, 0, true, false, false⟩,
       ⟨VAELIX_KEY, 0, true, true, false⟩,
       ⟨VAELIX_KEY, 0, true, true, false⟩,
       ⟨VAELIX_KEY, 0, true, true, false⟩,
       ⟨VAELIX_KEY, 0, true, true, false⟩,
       ⟨VAELIX_KEY, 0, true, true, false⟩]).auth = .Verified ∧
    List.map TickInput.ena
      [(⟨VAELIX_KEY, 0, true, true, false⟩ : TickInput),
       ⟨0x00, 0, true, false, false⟩,
       ⟨VAELIX_KEY, 0, true, true, false⟩,
       ⟨VAELIX_KEY, 0, true, true, false⟩,
       ⟨VAELIX_KEY, 0, true, true, false⟩,
       ⟨VAELIX_KEY, 0, true, true, false⟩,
       ⟨VAELIX_KEY, 0, true, true, false⟩] =
      [true, true, true, true, true, true, true] := by
  decide

/-- C4 (amended): if the input bus already equals the key at the tick when
enable rises, the machine asserts `ReplayLockout`: the output renders Locked at
that tick, and for the remainder of the power cycle — as long as the sovereign
reset line stays released and no glitch is asserted — the lockout persists and
the output never becomes `Verified`, even after the key is removed and
re-presented within the admission window. -/
theorem C4_replay_immediate (s : CoreState) (i : TickInput)
    (hp : s.prevEna = false) (he : i.ena = true) (hg : i.glitch = false)
    (hr : i.rst_n = true) (hb : s.brick = false) (ha : auxBits i.aux = s.auxRef)
    (hk : i.ui = VAELIX_KEY) :
    (step s i).auth = .ReplayLockout ∧
    render (step s i).auth = (SEG_LOCKED, GLOW_DORMANT, UIO_ALL_OUTPUT) ∧
    ∀ is : List TickInput,
      (∀ j ∈ is, j.ena = true ∧ j.rst_n = true ∧ j.glitch = false) →
      ∀ t ∈ trace (step s i) is, t.replayLocked = true ∧ t.auth ≠ .Verified := by
  have h1 := step_immediate_replay s i he hg hr hp hk hb ha
  refine ⟨h1.1, by rw [h1.1]; rfl, ?_⟩
  intro is hall t ht
  exact trace_replay (step s i) h1.2 is hall t ht

theorem C4_witness :
    (step CoreState.start ⟨VAELIX_KEY, 0, true, true, false⟩).auth = .ReplayLockout ∧
    (step (step CoreState.start ⟨VAELIX_KEY, 0, true, true, false⟩)
        ⟨0x00, 0, true, true, false⟩).auth ≠ .Verified := by
  have h := C4_replay_immediate CoreState.start ⟨VAELIX_KEY, 0, true, true, false⟩
    rfl rfl rfl rfl rfl rfl rfl
  refine ⟨h.1, (h.2.2 [⟨0x00, 0, true, true, false⟩] (by decide)
    (step (step CoreState.start ⟨VAELIX_KEY, 0, true, true, false⟩)
      ⟨0x00, 0, true, true, false⟩) ?_).2⟩
  simp [trace]

/-- C5: tamper latch — any change of auxiliary-bus bits 1..7 from their
reset-time reference on a powered tick puts the machine in `Brick` (display
0x00, glow 0x00); once latched it stays in `Brick` for every subsequent powered
tick regardless of the input bus, including across soft resets and glitches;
de-asserting enable (a power cycle) returns it to `Locked` and clears the
latch; and a change on auxiliary-bus bit 0 alone is invisible to the monitor
and never causes `Brick`. -/
theorem C5_tamper_latch :
    (∀ (s : CoreState) (i : TickInput), i.ena = true → i.glitch = false →
      i.rst_n = true → auxBits i.aux ≠ s.auxRef →
      (step s i).auth = .Brick ∧ (step s i).brick = true ∧
      render (step s i).auth = (SEG_BRICK, GLOW_DORMANT, UIO_ALL_OUTPUT)) ∧
    (∀ s : CoreState, s.brick = true →
      ∀ is : List TickInput, (∀ j ∈ is, j.ena = true) →
        ∀ t ∈ trace s is, t.brick = true ∧ t.auth = .Brick) ∧
    (∀ (s : CoreState) (i : TickInput), i.ena = false →
      (step s i).auth = .Locked ∧ (step s i).brick = false) ∧
    (∀ (s : CoreState) (i : TickInput), s.brick = false → auxBits i.aux = s.auxRef →
      (step s i).brick = false ∧ (step s i).auth ≠ .Brick) ∧
    (∀ a : Nat, auxBits (a ^^^ 1) = auxBits a) := by
  refine ⟨?_, trace_brick, ?_, step_no_new_brick, ?_⟩
  · intro s i he hg hr ha
    have h := step_new_tamper s i he hg hr ha
    exact ⟨h.2, h.1, by rw [h.2]; rfl⟩
  · intro s i he
    rw [step_off_eq s i he]
    exact ⟨rfl, rfl⟩
  · intro a
    unfold auxBits
    rw [Nat.and_xor_distrib_right]
    have h1 : (1 : Nat) &&& 0xFE = 0 := by decide
    rw [h1, Nat.xor_zero]

theorem C5_witness :
    (step CoreState.start ⟨0x00, 0x10, true, true, false⟩).auth = .Brick ∧
    (step CoreState.start ⟨0x00, 0x01, true, true, false⟩).auth ≠ .Brick ∧
    (step { CoreState.start with brick := true }
        ⟨0x00, 0x00, false, true, false⟩).auth = .Locked :=
  ⟨(C5_tamper_latch.1 _ _ rfl rfl rfl (by decide)).1,
   (C5_tamper_latch.2.2.2.1 _ _ rfl (by decide)).2,
   (C5_tamper_latch.2.2.1 _ _ rfl).1⟩
